import Mathlib

/-!
Verification of the k8s-code-samples repository: a deduplicating task queue
driven by a dummy controller (part_000), and two informer/store demo
programs (part_001 and lib/informer/demo.go).

Shallow embedding conventions:
  * goroutine effects that the surrounding code immediately depends on are
    applied synchronously (sequential semantics);
  * channels are modelled by flags (a stop channel by whether it is closed);
  * logging and OS effects are returned as explicit action lists;
  * Go `error` results are `Option String` (`none` = nil error).
-/

namespace K8sCodeSamples

abbrev Key := String

/-- Modelled from the spec: the task queue implementation behind
`NewTaskQueue` / `Queue` is not among the provided source files (only its
callers are), so its state is taken from spec section 3: `pending`,
`processing`, `dirty` and the `shuttingDown` flag. -/
structure QueueState where
  pending : List Key
  processing : List Key
  dirty : List Key
  shuttingDown : Bool
  deriving Repr, DecidableEq

/-- Modelled from the spec: `Enqueue(key)` adds the key to `pending` if not
already pending; if the key is currently `processing` it is marked `dirty`
instead of being added to `pending`; no-op while `shuttingDown`
(spec section 4.1). -/
def QueueState.enqueue (q : QueueState) (k : Key) : QueueState :=
  if q.shuttingDown then q
  else if k ∈ q.processing then
    if k ∈ q.dirty then q else { q with dirty := q.dirty ++ [k] }
  else if k ∈ q.pending then q
  else { q with pending := q.pending ++ [k] }

/-- Modelled from the spec: `Done(key)` removes the key from `processing`
and, if it was marked `dirty`, re-adds it to `pending` and clears the dirty
mark (spec section 4.1). -/
def QueueState.done (q : QueueState) (k : Key) : QueueState :=
  if k ∈ q.dirty then
    { q with processing := q.processing.filter (fun x => x ≠ k),
             dirty := q.dirty.filter (fun x => x ≠ k),
             pending := q.pending ++ [k] }
  else
    { q with processing := q.processing.filter (fun x => x ≠ k) }

/-- Modelled from the spec: `Shutdown()` sets `shuttingDown = true`
(spec section 4.1). -/
def QueueState.shutdown (q : QueueState) : QueueState :=
  { q with shuttingDown := true }

/-- Modelled from the spec: `IsShuttingDown()` is a non-blocking read of the
`shuttingDown` flag (spec section 4.1). -/
def QueueState.IsShuttingDown (q : QueueState) : Bool :=
  q.shuttingDown

/-- A sequence of `Enqueue` calls applied in order. -/
def enqueueSeq (q : QueueState) (ks : List Key) : QueueState :=
  ks.foldl QueueState.enqueue q

/-- What the worker decides to do with a key whose sync attempt failed. -/
inductive RetryDecision
  | requeueAfter (delay : Nat)
  | dropTerminal
  deriving Repr, DecidableEq

/-- Modelled from the spec: on error the worker retries the key up to a
maximum attempt count with exponential backoff, after which the key is
dropped and the failure is logged as terminal (spec section 4.1). -/
def retryDecision (maxRetries baseDelay attempts : Nat) : RetryDecision :=
  if attempts < maxRetries then .requeueAfter (baseDelay * 2 ^ attempts)
  else .dropTerminal

/-- Outcome of one worker step after `SyncFunc` returned: the new queue
state, an optional delayed requeue of the key, and an optional terminal
failure log for the key.  There is no error component: the worker never
propagates a `SyncFunc` error to its caller. -/
structure StepResult where
  state : QueueState
  requeued : Option (Key × Nat)
  terminalLog : Option Key
  deriving Repr, DecidableEq

/-- Modelled from the spec: the worker step after `SyncFunc(key)` returned
`res`.  On nil error it calls `Done(key)`; on error it calls `Done(key)`
then `Retry(key)`, requeueing with backoff while under the attempt limit
and dropping the key with a terminal log afterwards (spec section 4.1). -/
def handleSyncResult (q : QueueState) (k : Key) (res : Option String)
    (attempts maxRetries baseDelay : Nat) : StepResult :=
  match res with
  | none => { state := q.done k, requeued := none, terminalLog := none }
  | some _ =>
    match retryDecision maxRetries baseDelay attempts with
    | .requeueAfter d =>
        { state := q.done k, requeued := some (k, d), terminalLog := none }
    | .dropTerminal =>
        { state := q.done k, requeued := none, terminalLog := some k }

/-- The queue-demo controller of part_000: its sync queue, its stop channel
(modelled by whether the channel has been closed) and its `isShuttingDown`
flag. -/
structure DummyController where
  syncQueue : QueueState
  stopChClosed : Bool
  isShuttingDown : Bool
  deriving Repr, DecidableEq

/-- part_000 `NewDummyController`: fresh queue, open stop channel. -/
def NewDummyController : DummyController :=
  { syncQueue := { pending := [], processing := [], dirty := [],
                   shuttingDown := false },
    stopChClosed := false,
    isShuttingDown := false }

/-- part_000 `DummyController.Stop`: set `isShuttingDown`, then under the
stop lock return an error if the queue is already shutting down, otherwise
close the stop channel and shut the queue down (the
`go dc.syncQueue.Shutdown()` goroutine is applied synchronously in this
sequential model). -/
def DummyController.Stop (dc : DummyController) :
    DummyController × Option String :=
  let dc1 := { dc with isShuttingDown := true }
  if dc1.syncQueue.IsShuttingDown then
    (dc1, some "shutdown already in progress")
  else
    ({ dc1 with stopChClosed := true, syncQueue := dc1.syncQueue.shutdown },
     none)

/-- part_000 `doFakedJob`: return nil immediately when the queue is shutting
down; otherwise log the received event and return nil.  The second
component is the list of log lines emitted. -/
def DummyController.doFakedJob (dc : DummyController) (obj : String) :
    Option String × List String :=
  if dc.syncQueue.IsShuttingDown then (none, [])
  else (none, ["Received event " ++ obj])

/-- Observable process-level actions of the signal handler. -/
inductive ProcAction
  | recvSignal
  | callStop
  | sleep (seconds : Nat)
  | exitWith (code : Nat)
  deriving Repr, DecidableEq

/-- part_000 `handleSigterm`: wait for SIGTERM/interrupt, call `Stop`, pick
the exit code from its error (1 on error, 0 otherwise), sleep one second,
then exit with that code. -/
def handleSigterm (dc : DummyController) :
    DummyController × List ProcAction :=
  let r := dc.Stop
  let exitCode := if (r.2).isSome then 1 else 0
  (r.1, [.recvSignal, .callStop, .sleep 1, .exitWith exitCode])

/-- The resource kinds watched by the informer demos. -/
inductive Resource
  | pod
  | endpoint
  | ingress
  deriving Repr, DecidableEq

/-- Observable actions of `Informer.Run`, in program order. `crash` stands
for a runtime panic; none of the modelled functions emits it. -/
inductive RunAction
  | startWatch (r : Resource)
  | waitForSync (rs : List Resource)
  | handleError (msg : String)
  | sleep (seconds : Nat)
  | crash
  deriving Repr, DecidableEq

/-- part_001 `Informer.Run` (pod + endpoint + ingress informers): start the
pod and endpoint watches, wait for cache sync over `Pod.HasSynced` only
(reporting a timeout through `runtime.HandleError` when the wait fails),
sleep one second, then start the ingress watch and wait for its sync.
`podSynced` and `ingSynced` are the results of the two `WaitForCacheSync`
calls. -/
def InformerMulti.run (podSynced ingSynced : Bool) : List RunAction :=
  [.startWatch .pod, .startWatch .endpoint, .waitForSync [.pod]]
  ++ (if podSynced then []
      else [.handleError "Timed out waiting for caches to sync"])
  ++ [.sleep 1, .startWatch .ingress, .waitForSync [.ingress]]
  ++ (if ingSynced then []
      else [.handleError "Timed out waiting for caches to sync"])

/-- lib/informer/demo.go `Informer.Run` (single pod informer): start the pod
watch and wait for its sync, reporting a timeout through
`runtime.HandleError` when the wait fails. -/
def InformerSingle.run (podSynced : Bool) : List RunAction :=
  [.startWatch .pod, .waitForSync [.pod]]
  ++ (if podSynced then []
      else [.handleError "Timed out waiting for caches to sync"])

/-- True when, before the ingress watch is started, the trace performs a
cache-sync wait that covers resource `r`. -/
def waitsBeforeIngressStart (tr : List RunAction) (r : Resource) : Bool :=
  (tr.takeWhile (fun a => a ≠ .startWatch .ingress)).any fun a =>
    match a with
    | .waitForSync rs => rs.contains r
    | _ => false

/-- Pod status, reduced to the `Phase` field the update handler reads. -/
structure PodStatus where
  phase : String
  deriving Repr, DecidableEq

structure Pod where
  name : String
  status : PodStatus
  deriving Repr, DecidableEq

/-- part_001 / demo.go pod `UpdateFunc`: return without logging when the old
and new pods have the same `Status.Phase`; otherwise log the update.  The
result is whether a notification is emitted. -/
def podUpdateNotifies (old cur : Pod) : Bool :=
  if old.status.phase = cur.status.phase then false
  else true

/-- One endpoint subset (addresses and ports), compared structurally as
`reflect.DeepEqual` does. -/
structure EndpointSubset where
  addresses : List String
  ports : List Nat
  deriving Repr, DecidableEq

structure Endpoints where
  name : String
  subsets : List EndpointSubset
  deriving Repr, DecidableEq

/-- part_001 endpoint `UpdateFunc`: log only when the old and new `Subsets`
are not deeply equal.  The result is whether a notification is emitted. -/
def epUpdateNotifies (old cur : Endpoints) : Bool :=
  if cur.subsets = old.subsets then false
  else true

/-- An ingress object, reduced to its identity. -/
structure Ingress where
  name : String
  deriving Repr, DecidableEq

/-- What a `DeletedFinalStateUnknown` tombstone's `Obj` field holds: either
an ingress or some other object. -/
inductive TombstoneContent
  | ingressObj (i : Ingress)
  | otherObj
  deriving Repr, DecidableEq

/-- The dynamic payload delivered to the ingress `DeleteFunc`: a typed
ingress, a tombstone wrapper, or something else entirely. -/
inductive DeletePayload
  | ingressObj (i : Ingress)
  | tombstone (t : TombstoneContent)
  | otherObj
  deriving Repr, DecidableEq

/-- Outcome of the ingress delete handler: the recovered ingress was
processed, or the event was dropped after logging an error. -/
inductive DeleteOutcome
  | processed (i : Ingress)
  | droppedLogged (msg : String)
  deriving Repr, DecidableEq

/-- part_001 ingress `DeleteFunc`: a typed ingress is processed directly; a
tombstone containing an ingress yields its last-known ingress; a tombstone
containing anything else, or a payload that is not a tombstone at all, is
logged as an error and dropped. -/
def ingDeleteFunc (obj : DeletePayload) : DeleteOutcome :=
  match obj with
  | .ingressObj i => .processed i
  | .tombstone t =>
    match t with
    | .ingressObj i => .processed i
    | .otherObj =>
        .droppedLogged "Tombstone contained object that is not an Ingress"
  | .otherObj => .droppedLogged "couldn't get object from tombstone"

/-! ## Helper lemmas about the queue operations -/

theorem enqueue_processing_eq (q : QueueState) (k : Key) :
    (q.enqueue k).processing = q.processing := by
  unfold QueueState.enqueue
  split_ifs <;> rfl

theorem enqueue_shuttingDown_eq (q : QueueState) (k : Key) :
    (q.enqueue k).shuttingDown = q.shuttingDown := by
  unfold QueueState.enqueue
  split_ifs <;> rfl

theorem enqueue_no_op_of_mem_pending (q : QueueState) (k : Key)
    (hs : q.shuttingDown = false) (hp : k ∉ q.processing)
    (hm : k ∈ q.pending) :
    q.enqueue k = q := by
  simp [QueueState.enqueue, hs, hp, hm]

theorem enqueueSeq_replicate_no_op (q : QueueState) (k : Key) (n : Nat)
    (hs : q.shuttingDown = false) (hp : k ∉ q.processing)
    (hm : k ∈ q.pending) :
    enqueueSeq q (List.replicate n k) = q := by
  induction n with
  | zero => rfl
  | succ m ih =>
    have h1 : enqueueSeq q (List.replicate (m + 1) k)
        = enqueueSeq (q.enqueue k) (List.replicate m k) := by
      simp [enqueueSeq, List.replicate_succ]
    rw [h1, enqueue_no_op_of_mem_pending q k hs hp hm]
    exact ih

theorem done_shuttingDown_eq (q : QueueState) (k : Key) :
    (q.done k).shuttingDown = q.shuttingDown := by
  unfold QueueState.done
  split_ifs <;> rfl

theorem done_pending_mem_other (q : QueueState) (k k2 : Key) (hne : k2 ≠ k) :
    k2 ∈ (q.done k).pending ↔ k2 ∈ q.pending := by
  unfold QueueState.done
  split_ifs <;> simp [hne]

/-! ## Claim theorems -/

/-- Claim C1: invoking `Stop` twice on the queue-demo controller: the first
invocation succeeds (returns no error), the second returns the explicit
"shutdown already in progress" error and leaves the controller and queue
state exactly as the first invocation left them. -/
theorem Stop_double_invocation (dc : DummyController)
    (h : dc.syncQueue.shuttingDown = false) :
    (dc.Stop).2 = none
  ∧ ((dc.Stop).1.Stop).2 = some "shutdown already in progress"
  ∧ ((dc.Stop).1.Stop).1 = (dc.Stop).1 := by
  cases dc with
  | mk q sc sd =>
    simp only [] at h
    simp [DummyController.Stop, QueueState.IsShuttingDown,
      QueueState.shutdown, h]

/-- Claim C1 witness: both invocations evaluated on the freshly constructed
controller. -/
theorem Stop_double_invocation_witness :
    NewDummyController.syncQueue.shuttingDown = false
  ∧ ((NewDummyController.Stop).2 = none
  ∧ ((NewDummyController.Stop).1.Stop).2 = some "shutdown already in progress"
  ∧ ((NewDummyController.Stop).1.Stop).1 = (NewDummyController.Stop).1) :=
  ⟨rfl, Stop_double_invocation NewDummyController rfl⟩

/-- Claim C2: in part_001 `Informer.Run` the only cache-sync wait performed
before the ingress watch starts covers the pod informer alone — the
endpoint informer's `HasSynced` is never awaited before the ingress watch
starts (in the successful-sync run and in the timed-out one alike), against
the claim that every prerequisite watch (pods and endpoints) must have
reported `HasSynced` first. -/
theorem ingress_starts_without_endpoint_sync :
    waitsBeforeIngressStart (InformerMulti.run true true) Resource.pod = true
  ∧ waitsBeforeIngressStart (InformerMulti.run true true) Resource.endpoint
      = false
  ∧ waitsBeforeIngressStart (InformerMulti.run false true) Resource.endpoint
      = false := by
  decide

/-- Claim C3: enqueueing a key that is currently being processed marks it
dirty rather than adding it to `pending`, and when the current processing
completes (`Done`) the key is resubmitted exactly once: one pending
instance, dirty mark cleared. -/
theorem enqueue_while_processing (q : QueueState) (k : Key)
    (hs : q.shuttingDown = false) (hp : k ∈ q.processing)
    (hpend : k ∉ q.pending) (hd : k ∉ q.dirty) :
    (q.enqueue k).pending = q.pending
  ∧ k ∈ (q.enqueue k).dirty
  ∧ ((q.enqueue k).done k).pending.count k = 1
  ∧ k ∉ ((q.enqueue k).done k).dirty := by
  have he : q.enqueue k = { q with dirty := q.dirty ++ [k] } := by
    simp [QueueState.enqueue, hs, hp, hd]
  rw [he]
  refine ⟨rfl, by simp, ?_, ?_⟩
  · simp [QueueState.done, List.count_append,
      List.count_eq_zero_of_not_mem hpend]
  · simp [QueueState.done]

/-- A concrete queue whose only activity is processing key "a", used to
instantiate the coalescing theorem. -/
def qProcA : QueueState :=
  { pending := [], processing := ["a"], dirty := [], shuttingDown := false }

/-- Claim C3 witness: the coalescing theorem evaluated on `qProcA`. -/
theorem enqueue_while_processing_witness :
    (qProcA.shuttingDown = false ∧ "a" ∈ qProcA.processing
      ∧ "a" ∉ qProcA.pending ∧ "a" ∉ qProcA.dirty)
  ∧ ((qProcA.enqueue "a").pending = qProcA.pending
      ∧ "a" ∈ (qProcA.enqueue "a").dirty
      ∧ ((qProcA.enqueue "a").done "a").pending.count "a" = 1
      ∧ "a" ∉ ((qProcA.enqueue "a").done "a").dirty) :=
  ⟨⟨by decide, by decide, by decide, by decide⟩,
   enqueue_while_processing qProcA "a" (by decide) (by decide) (by decide)
     (by decide)⟩

/-- Claim C4: any non-empty sequence of `Enqueue(k)` calls made while `k` is
not being processed leaves exactly one pending instance of `k` in the
queue. -/
theorem enqueue_idempotent_count (q : QueueState) (k : Key) (n : Nat)
    (hs : q.shuttingDown = false) (hp : k ∉ q.processing)
    (hpend : k ∉ q.pending) (hn : 1 ≤ n) :
    ((enqueueSeq q (List.replicate n k)).pending).count k = 1 := by
  obtain ⟨m, rfl⟩ : ∃ m, n = m + 1 := ⟨n - 1, by omega⟩
  have he : q.enqueue k = { q with pending := q.pending ++ [k] } := by
    simp [QueueState.enqueue, hs, hp, hpend]
  have hstep : enqueueSeq q (List.replicate (m + 1) k)
      = enqueueSeq (q.enqueue k) (List.replicate m k) := by
    simp [enqueueSeq, List.replicate_succ]
  have hs2 : (q.enqueue k).shuttingDown = false := by
    rw [enqueue_shuttingDown_eq]; exact hs
  have hp2 : k ∉ (q.enqueue k).processing := by
    rw [enqueue_processing_eq]; exact hp
  have hm2 : k ∈ (q.enqueue k).pending := by
    rw [he]; simp
  rw [hstep, enqueueSeq_replicate_no_op (q.enqueue k) k m hs2 hp2 hm2, he]
  simp [List.count_append, List.count_eq_zero_of_not_mem hpend]

/-- A concrete idle queue used to instantiate the queue theorems. -/
def qEmpty : QueueState :=
  { pending := [], processing := [], dirty := [], shuttingDown := false }

/-- Claim C4 witness: three consecutive enqueues of "a" into the idle
queue leave exactly one pending instance. -/
theorem enqueue_idempotent_count_witness :
    (qEmpty.shuttingDown = false ∧ "a" ∉ qEmpty.processing
      ∧ "a" ∉ qEmpty.pending ∧ 1 ≤ 3)
  ∧ ((enqueueSeq qEmpty (List.replicate 3 "a")).pending).count "a" = 1 :=
  ⟨⟨by decide, by decide, by decide, by decide⟩,
   enqueue_idempotent_count qEmpty "a" 3 (by decide) (by decide) (by decide)
     (by decide)⟩

/-- Claim C5: when `SyncFunc` returns an error, the key is requeued with
exponential backoff while under the attempt limit and is dropped with a
terminal failure log once the limit is reached; the step result carries no
error to the caller, the queue keeps running (`shuttingDown` unchanged) and
the pending entries of every other key are untouched. -/
theorem sync_error_retry_policy (q : QueueState) (k : Key) (msg : String)
    (attempts maxRetries baseDelay : Nat) :
    ((handleSyncResult q k (some msg) attempts maxRetries baseDelay).requeued
      = if attempts < maxRetries then some (k, baseDelay * 2 ^ attempts)
        else none)
  ∧ ((handleSyncResult q k (some msg) attempts maxRetries baseDelay).terminalLog
      = if attempts < maxRetries then none else some k)
  ∧ ((handleSyncResult q k (some msg) attempts maxRetries baseDelay).state.shuttingDown
      = q.shuttingDown)
  ∧ (∀ k2 : Key, k2 ≠ k →
      ((k2 ∈ (handleSyncResult q k (some msg) attempts maxRetries baseDelay).state.pending)
        ↔ k2 ∈ q.pending)) := by
  unfold handleSyncResult retryDecision
  split_ifs with hlt <;>
    exact ⟨rfl, rfl, done_shuttingDown_eq q k,
      fun k2 h2 => done_pending_mem_other q k k2 h2⟩

/-- Claim C5 witness: first failed attempt for key "x" on the idle queue is
requeued with the base backoff delay. -/
theorem sync_error_retry_policy_witness :
    (handleSyncResult qEmpty "x" (some "sync failed") 0 5 1).requeued
      = (if 0 < 5 then some (("x" : Key), 1 * 2 ^ 0) else none) :=
  (sync_error_retry_policy qEmpty "x" "sync failed" 0 5 1).1

/-- Claim C6: the pod update handler suppresses its notification exactly
when the old and new pods have equal `Status.Phase`, and the endpoint
update handler suppresses its notification exactly when the old and new
`Subsets` are deeply equal. -/
theorem update_handlers_suppress_unchanged
    (oldPod curPod : Pod) (oldEp curEp : Endpoints) :
    (podUpdateNotifies oldPod curPod = false
      ↔ oldPod.status.phase = curPod.status.phase)
  ∧ (epUpdateNotifies oldEp curEp = false
      ↔ curEp.subsets = oldEp.subsets) := by
  constructor
  · unfold podUpdateNotifies
    split_ifs with h <;> simp [h]
  · unfold epUpdateNotifies
    split_ifs with h <;> simp [h]

/-- Claim C7: the ingress delete handler processes a typed ingress,
extracts and processes the last-known ingress from a tombstone, and for an
unrecognized payload or a tombstone containing a non-ingress it logs an
error and drops the event (the handler is a total function into
`DeleteOutcome`: it never stops the watch). -/
theorem ing_delete_tombstone_handling :
    (∀ i : Ingress, ingDeleteFunc (.ingressObj i) = .processed i)
  ∧ (∀ i : Ingress,
      ingDeleteFunc (.tombstone (.ingressObj i)) = .processed i)
  ∧ ingDeleteFunc (.tombstone .otherObj)
      = .droppedLogged "Tombstone contained object that is not an Ingress"
  ∧ ingDeleteFunc .otherObj
      = .droppedLogged "couldn't get object from tombstone" :=
  ⟨fun _ => rfl, fun _ => rfl, rfl, rfl⟩

/-- Claim C8: when the cache-sync wait fails before the stop signal, both
`Informer.Run` variants report the timeout through the error-handling
collaborator (`runtime.HandleError`) and produce a normal trace containing
no crash. -/
theorem sync_timeout_reported (ingSynced : Bool) :
    RunAction.handleError "Timed out waiting for caches to sync"
      ∈ InformerMulti.run false ingSynced
  ∧ RunAction.crash ∉ InformerMulti.run false ingSynced
  ∧ RunAction.handleError "Timed out waiting for caches to sync"
      ∈ InformerSingle.run false
  ∧ RunAction.crash ∉ InformerSingle.run false := by
  cases ingSynced <;> decide

/-- Claim C9: on SIGTERM/interrupt the handler calls `Stop`, sleeps the
fixed one-second grace period, then exits with code 0 when `Stop` returned
no error and code 1 when `Stop` reported an error. -/
theorem handleSigterm_exit (dc : DummyController) :
    (handleSigterm dc).2
      = [ProcAction.recvSignal, ProcAction.callStop, ProcAction.sleep 1,
         ProcAction.exitWith (if ((dc.Stop).2).isSome then 1 else 0)]
  ∧ ((dc.Stop).2 = none → ProcAction.exitWith 0 ∈ (handleSigterm dc).2)
  ∧ (∀ e : String, (dc.Stop).2 = some e →
      ProcAction.exitWith 1 ∈ (handleSigterm dc).2) := by
  refine ⟨rfl, ?_, ?_⟩
  · intro h
    simp [handleSigterm, h]
  · intro e h
    simp [handleSigterm, h]

/-- Claim C10: `doFakedJob` returns a nil error for every controller state
and every input (empty log while shutting down, one event log otherwise),
so handing its result to the worker's error handling never produces a
retry or a terminal drop. -/
theorem doFakedJob_never_errors (dc : DummyController) (obj : String)
    (q : QueueState) (k : Key) (attempts maxRetries baseDelay : Nat) :
    ((dc.doFakedJob obj).1 = none)
  ∧ (dc.syncQueue.shuttingDown = true → (dc.doFakedJob obj).2 = [])
  ∧ (dc.syncQueue.shuttingDown = false →
      (dc.doFakedJob obj).2 = ["Received event " ++ obj])
  ∧ (handleSyncResult q k (dc.doFakedJob obj).1
      attempts maxRetries baseDelay).requeued = none
  ∧ (handleSyncResult q k (dc.doFakedJob obj).1
      attempts maxRetries baseDelay).terminalLog = none := by
  have h1 : (dc.doFakedJob obj).1 = none := by
    unfold DummyController.doFakedJob QueueState.IsShuttingDown
    split_ifs <;> rfl
  refine ⟨h1, ?_, ?_, ?_, ?_⟩
  · intro h
    simp [DummyController.doFakedJob, QueueState.IsShuttingDown, h]
  · intro h
    simp [DummyController.doFakedJob, QueueState.IsShuttingDown, h]
  · rw [h1]
    rfl
  · rw [h1]
    rfl

end K8sCodeSamples
